import Mathlib

/-!
Verification development for the LayerView G-code ingestion pipeline.

The definitions below are a shallow embedding of the Python sources:

* `layerview/simulation/machine.py`  — the machine-state simulator;
* `layerview/gcode/commands.py`      — command construction/validation;
* `layerview/visualization/point_cloud/interpolation.py` — arc validation;
* `layerview/visualization/point_cloud/model.py` — the model builder;
* `layerview/visualization/point_cloud/path.py`  — endpoint padding.

Numbers are embedded as exact rationals (`ℚ`) in place of IEEE floats;
the endpoint-padding geometry, which divides by a Euclidean norm, lives in
`ℝ`.  Structure and field names follow the source.
-/

namespace LayerView

/-- Rational 3D point, standing for the panda3d `Point3D` values used by
`machine.py` (exact rationals in place of IEEE doubles). -/
structure Pt3 where
  x : ℚ
  y : ℚ
  z : ℚ
deriving DecidableEq

/-- Componentwise addition, as `Point3D.__add__`. -/
def Pt3.add (a b : Pt3) : Pt3 := ⟨a.x + b.x, a.y + b.y, a.z + b.z⟩

/-- Componentwise subtraction, as `Point3D.__sub__`. -/
def Pt3.sub (a b : Pt3) : Pt3 := ⟨a.x - b.x, a.y - b.y, a.z - b.z⟩

/-- Python truthiness of an `Optional[float]` value: `None` and `0.0` are
falsy, every other number is truthy.  `machine.py` tests `if command.x:`
(not `if command.x is not None:`) in `_set_position`, and `model.py` tests
`any([command.x, command.y])`; both go through this predicate. -/
def pyTruthy (o : Option ℚ) : Bool :=
  match o with
  | none => false
  | some v => decide (v ≠ 0)

/-- Python `round(q, 3)`: round to 3 decimal places.  CPython rounds ties
to even; no claim is evaluated at a tie, and the model uses Mathlib's
`round` (ties up). -/
def round3 (q : ℚ) : ℚ := (round (q * 1000) : ℤ) / 1000

/-- `MachineState` of `machine.py`: position and offsets, extruder value and
offset, feedrate, extruder temperature and the three mode flags. -/
structure MachineState where
  position : Pt3
  offset_position : Pt3
  extruder : ℚ
  offset_extruder : ℚ
  feedrate : ℚ
  temp_extruder : ℚ
  is_rel_positioning : Bool
  is_rel_extruder : Bool
  is_imperial : Bool
deriving DecidableEq

/-- The default-constructed `MachineState()`: RepRapFirmware defaults
(feedrate 40, everything else zero / absolute / metric). -/
def MachineState.init : MachineState :=
  { position := ⟨0, 0, 0⟩
    offset_position := ⟨0, 0, 0⟩
    extruder := 0
    offset_extruder := 0
    feedrate := 40
    temp_extruder := 0
    is_rel_positioning := false
    is_rel_extruder := false
    is_imperial := false }

/-- `MachineState.update(self, state)` (machine.py lines 299-315): the value
this state holds after being overwritten with `state`.  Translated line by
line; note that the source's line 312 reads
`self.temp_extruder = state.feedrate`, so the temperature field receives the
incoming state's feedrate, not its temperature. -/
def MachineState.update (state : MachineState) : MachineState :=
  { position := state.position
    offset_position := state.offset_position
    extruder := state.extruder
    offset_extruder := state.offset_extruder
    feedrate := state.feedrate
    temp_extruder := state.feedrate
    is_rel_positioning := state.is_rel_positioning
    is_rel_extruder := state.is_rel_extruder
    is_imperial := state.is_imperial }

/-- `MachineState.position_abs`: absolute position = position − offset. -/
def MachineState.position_abs (s : MachineState) : Pt3 :=
  s.position.sub s.offset_position

/-- `MachineState.extruder_abs`: absolute extruder = extruder − offset. -/
def MachineState.extruder_abs (s : MachineState) : ℚ :=
  s.extruder - s.offset_extruder

/-- `MachineState.unit_multiplier`: 25.4 in imperial mode, 1.0 otherwise. -/
def MachineState.unit_multiplier (s : MachineState) : ℚ :=
  if s.is_imperial then 254 / 10 else 1

/-- The closed command vocabulary of `commands.py`, restricted to the fields
the simulator and builder read.  `line_move` covers G0/G1, `arc_move` covers
G2 (`clockwise = true`) and G3.  Mandatory parameters are still carried as
`Option ℚ` because the Python classes declare them `Optional`; the
constructor functions below enforce the mandatory-field contracts.
Source line numbers (diagnostics only) are not modelled. -/
inductive Command where
  | line_move (x y z e f h r s : Option ℚ)
  | arc_move (clockwise : Bool) (x y i j e f : Option ℚ)
  | g20
  | g21
  | g28 (x y z : Bool)
  | g90
  | g91
  | g92 (x y z e : Option ℚ)
  | m82
  | m83
  | m104 (s : ℚ) (r d : Option ℚ)
  | m109 (s : ℚ) (r t : Option ℚ)
deriving DecidableEq

/-- Whether a command is a `Move` (G0/G1/G2/G3). -/
def Command.isMove : Command → Bool
  | .line_move _ _ _ _ _ _ _ _ => true
  | .arc_move _ _ _ _ _ _ _ => true
  | _ => false

/-- `get_xyz_from_command` (machine.py lines 355-382): the (x, y, z) values
of a move; an arc move never carries a z. -/
def move_xyz : Command → Option ℚ × Option ℚ × Option ℚ
  | .line_move x y z _ _ _ _ _ => (x, y, z)
  | .arc_move _ x y _ _ _ _ => (x, y, none)
  | _ => (none, none, none)

/-- The `e` parameter of a move command. -/
def move_e : Command → Option ℚ
  | .line_move _ _ _ e _ _ _ _ => e
  | .arc_move _ _ _ _ _ e _ => e
  | _ => none

/-- The `f` parameter of a move command. -/
def move_f : Command → Option ℚ
  | .line_move _ _ _ _ f _ _ _ => f
  | .arc_move _ _ _ _ _ _ f => f
  | _ => none

/-- The `Machine` of `machine.py`: the previous- and current-state
snapshots.  This value-level model is faithful for a machine driven on its
own; the sharing of the default `Point3D` arguments between machine
instances is modelled separately below (`HeapMachine`). -/
structure Machine where
  state_previous : MachineState
  state_current : MachineState
deriving DecidableEq

/-- A freshly constructed `Machine()` in a fresh process. -/
def Machine.init : Machine := ⟨MachineState.init, MachineState.init⟩

/-- `Machine._handle_move` (machine.py lines 114-160), acting on the current
state after the previous-state snapshot `prev` has been written: feedrate
and extruder updates, then the position update — relative mode adds the
provided axis deltas to the snapshot position and rounds each coordinate to
3 decimals; absolute mode overwrites exactly the provided coordinates with
value × unit multiplier (z only for line moves, via `move_xyz`). -/
def Machine.handle_move (m : Machine) (c : Command) : MachineState :=
  let prev := m.state_previous
  let cur := m.state_current
  let cur :=
    match move_f c with
    | some fv => { cur with feedrate := fv }
    | none => cur
  let cur :=
    match move_e c with
    | some ev =>
        { cur with extruder := if prev.is_rel_extruder then prev.extruder + ev else ev }
    | none => cur
  if prev.is_rel_positioning then
    let xyz := move_xyz c
    { cur with position :=
        ⟨round3 (prev.position.x + xyz.1.getD 0),
         round3 (prev.position.y + xyz.2.1.getD 0),
         round3 (prev.position.z + xyz.2.2.getD 0)⟩ }
  else
    let xyz := move_xyz c
    { cur with position :=
        ⟨match xyz.1 with
         | some v => v * prev.unit_multiplier
         | none => cur.position.x,
         match xyz.2.1 with
         | some v => v * prev.unit_multiplier
         | none => cur.position.y,
         match xyz.2.2 with
         | some v => v * prev.unit_multiplier
         | none => cur.position.z⟩ }

/-- `Machine.handle_command` (machine.py lines 89-110) together with the
per-command handlers: the previous state is overwritten with the current
one (via `MachineState.update`), then the handler mutates the current
state.  Every constructor of `Command` has a handler, so the
unknown-command path never fires here. -/
def Machine.handle_command (m : Machine) (c : Command) : Machine :=
  let prev := MachineState.update m.state_current
  let m' : Machine := ⟨prev, m.state_current⟩
  match c with
  | .g20 => { m' with state_current.is_imperial := true }
  | .g21 => { m' with state_current.is_imperial := false }
  | .g90 => { m' with state_current.is_rel_positioning := false }
  | .g91 => { m' with state_current.is_rel_positioning := true }
  | .m82 => { m' with state_current.is_rel_extruder := false }
  | .m83 => { m' with state_current.is_rel_extruder := true }
  | .m104 s _ _ => { m' with state_current.temp_extruder := s }
  | .m109 s _ _ => { m' with state_current.temp_extruder := s }
  | .g28 x y z =>
      if !(x || y || z) then
        { m' with state_current :=
            { m'.state_current with offset_position := ⟨0, 0, 0⟩, position := ⟨0, 0, 0⟩ } }
      else
        let cur := m'.state_current
        let cur := if x then { cur with offset_position.x := 0, position.x := 0 } else cur
        let cur := if y then { cur with offset_position.y := 0, position.y := 0 } else cur
        let cur := if z then { cur with offset_position.z := 0, position.z := 0 } else cur
        { m' with state_current := cur }
  | .g92 x y z e =>
      let cur := m'.state_current
      let cur :=
        if pyTruthy x then { cur with offset_position.x := prev.position.x - x.getD 0 } else cur
      let cur :=
        if pyTruthy y then { cur with offset_position.y := prev.position.y - y.getD 0 } else cur
      let cur :=
        if pyTruthy z then { cur with offset_position.z := prev.position.z - z.getD 0 } else cur
      let cur :=
        if pyTruthy e then { cur with offset_extruder := prev.extruder - e.getD 0 } else cur
      { m' with state_current := cur }
  | .line_move x y z e f h r s =>
      { m' with state_current := m'.handle_move (.line_move x y z e f h r s) }
  | .arc_move cw x y i j e f =>
      { m' with state_current := m'.handle_move (.arc_move cw x y i j e f) }

/-- Replay a command list on a fresh machine. -/
def Machine.run (cmds : List Command) : Machine :=
  cmds.foldl Machine.handle_command Machine.init

/-! ## Command construction (`commands.py`)

The constructors validate mandatory parameters.  `LineMove.__init__`,
`ArcMove.__init__` and `G92.__init__` raise `CommandMissingParamError`;
`M104.__init__` and `M109.__init__` declare `s` as a required positional
parameter instead, so calling them without `s` (as
`CommandParser._create_from_float_params` does via `command_type(**params)`
when no `s` token is present) fails with Python's own `TypeError`, not with
a `CommandError`. -/

/-- Outcome of a failed command construction: `command_missing_param` is
`CommandMissingParamError`; `python_type_error` is the interpreter-level
`TypeError` for a call that omits a required positional argument. -/
inductive CtorError where
  | command_missing_param
  | python_type_error
deriving DecidableEq

/-- `LineMove.__init__` (commands.py lines 93-115): at least one of
x, y, z, e, f, h, r, s must be provided. -/
def mkLineMove (x y z e f h r s : Option ℚ) : Except CtorError Command :=
  if x.isSome || y.isSome || z.isSome || e.isSome ||
      f.isSome || h.isSome || r.isSome || s.isSome then
    .ok (.line_move x y z e f h r s)
  else
    .error .command_missing_param

/-- `ArcMove.__init__` (commands.py lines 143-163): x, y, i, j, e are all
mandatory. -/
def mkArcMove (clockwise : Bool) (x y i j e f : Option ℚ) : Except CtorError Command :=
  if x.isSome && y.isSome && i.isSome && j.isSome && e.isSome then
    .ok (.arc_move clockwise x y i j e f)
  else
    .error .command_missing_param

/-- `G92.__init__` (commands.py lines 260-275): at least one of x, y, z, e
must be provided. -/
def mkG92 (x y z e : Option ℚ) : Except CtorError Command :=
  if x.isSome || y.isSome || z.isSome || e.isSome then
    .ok (.g92 x y z e)
  else
    .error .command_missing_param

/-- Calling `M104(**params)` (commands.py lines 201-206): `s` is a required
positional parameter, so omitting it is a `TypeError` raised by the call
itself, before any body code runs. -/
def mkM104 (s r d : Option ℚ) : Except CtorError Command :=
  match s with
  | none => .error .python_type_error
  | some sv => .ok (.m104 sv r d)

/-- Calling `M109(**params)` (commands.py lines 221-226): `s` is a required
positional parameter, so omitting it is a `TypeError`. -/
def mkM109 (s r t : Option ℚ) : Except CtorError Command :=
  match s with
  | none => .error .python_type_error
  | some sv => .ok (.m109 sv r t)

/-! ## Arc interpolation validation (`interpolation.py`) -/

/-- Rational 2D point (panda3d `Point2D` / `LVector2d`). -/
structure Vec2 where
  x : ℚ
  y : ℚ
deriving DecidableEq

/-- The xy plane projection of a 3D point (`Point3D.xy`). -/
def Pt3.xy (p : Pt3) : Vec2 := ⟨p.x, p.y⟩

/-- Squared Euclidean distance of two points. -/
def sq_dist (a b : Vec2) : ℚ := (a.x - b.x) ^ 2 + (a.y - b.y) ^ 2

/-- `math.isclose(√s1, √s2, rel_tol=0.01, abs_tol=0)` for squared lengths
`s1, s2 ≥ 0`:  `|√s1 − √s2| ≤ 0.01 · max (√s1) (√s2)` is equivalent to
`(99/100)² · max s1 s2 ≤ min s1 s2` (the theorem `isclose_sqrt_sq_correct`
below proves the equivalence); the squared form keeps the test exactly
computable over `ℚ`. -/
def isclose_sqrt_sq (s1 s2 : ℚ) : Bool :=
  decide ((9801 : ℚ) / 10000 * max s1 s2 ≤ min s1 s2)

/-- The exceptions `CircularArcInterpolator.interpolate` can raise:
`value_error` is the `ValueError` of interpolation.py line 86;
`type_error` is the `TypeError` CPython's `math.isclose` raises when an
argument is not a real number. -/
inductive ArcError where
  | value_error
  | type_error
deriving DecidableEq

/-- Decidable equality of `Except` results, so that concrete runs can be
settled by `decide`. -/
instance {ε α : Type} [DecidableEq ε] [DecidableEq α] : DecidableEq (Except ε α) :=
  fun a b =>
    match a, b with
    | .ok x, .ok y =>
        decidable_of_iff (x = y) ⟨fun h => by rw [h], fun h => by injection h⟩
    | .error x, .error y =>
        decidable_of_iff (x = y) ⟨fun h => by rw [h], fun h => by injection h⟩
    | .ok _, .error _ => isFalse (fun h => by injection h)
    | .error _, .ok _ => isFalse (fun h => by injection h)

/-- A value passed as an argument to `math.isclose`.  A real number is
carried as its SQUARE (the numbers the source passes are the square roots
of rational squared distances); `bound_method` stands for an attribute
access that lacks the call parentheses, such as `(src - pivot).length` on
a panda3d vector, whose `length` is a method, not a property —
interpolation.py line 85 and camera.py line 398 both call `.length()`. -/
inductive PyArg where
  | num_sq (s : ℚ)
  | bound_method
deriving DecidableEq

/-- `math.isclose(a, b, rel_tol=0.01, abs_tol=0)` as the source calls it:
CPython first coerces both arguments to real numbers and raises
`TypeError` when one is not (such as a bound method object), before any
comparison; on two numbers it tests `|a − b| ≤ 0.01 · max(|a|, |b|)`,
rendered exactly on the squared values by `isclose_sqrt_sq`. -/
def py_isclose_sqrt (a b : PyArg) : Except ArcError Bool :=
  match a, b with
  | .num_sq s1, .num_sq s2 => .ok (isclose_sqrt_sq s1 s2)
  | _, _ => .error .type_error

/-- The validation gate of `CircularArcInterpolator.interpolate`
(interpolation.py lines 82-89), translated line by line.  Line 82 reads
`radius = (src - pivot).length` WITHOUT the call parentheses, so `radius`
is the bound method object, not a number; line 85 then calls
`math.isclose(a=radius, b=(dst - pivot).length(), rel_tol=0.01)`, which
raises `TypeError` on every input before any distance comparison — both
the `ValueError` of line 86 (whose condition is moreover inverted: it
fires when `isclose` HOLDS, against the docstring) and the success path
(the trigonometric polyline, abstracted to `Unit` here) are unreachable. -/
def interpolate (_src dst pivot : Vec2) (_is_clockwise : Bool) : Except ArcError Unit :=
  let radius : PyArg := .bound_method
  match py_isclose_sqrt radius (.num_sq (sq_dist dst pivot)) with
  | .error e => .error e
  | .ok true => .error .value_error
  | .ok false => .ok ()

/-! ## The model builder (`model.py`) -/

/-- A `Layer` object's identity: the builder allocates them in creation
order.  Python dictionaries keyed by `Layer` objects key on identity. -/
abbrev LayerId := Nat

/-- Errors that abort a build; `arc_error` wraps an exception propagating
out of `CircularArcInterpolator.interpolate`. -/
inductive BuildError where
  | post_priming_descent (cur_layer_z prev_layer_z : ℚ)
  | late_effector_descent (cur_layer_z prev_layer_z : ℚ) (prev_layer_count : Nat)
  | key_error
  | arc_error (e : ArcError)
deriving DecidableEq

/-- Lookup in an insertion-ordered association list (a Python `dict`). -/
def alookup {α β : Type} [DecidableEq α] (l : List (α × β)) (k : α) : Option β :=
  match l with
  | [] => none
  | (k', v) :: rest => if k' = k then some v else alookup rest k

/-- Python `dict.pop(k)`: the removed value (if any) and the remaining
entries in their original order. -/
def apop {α β : Type} [DecidableEq α] (l : List (α × β)) (k : α) :
    Option β × List (α × β) :=
  match l with
  | [] => (none, [])
  | (k', v) :: rest =>
      if k' = k then (some v, rest)
      else
        let (found, rest') := apop rest k
        (found, (k', v) :: rest')

/-- Update the value stored at a key in place (a Python
`d[k].append(...)`-style mutation); keys not present are untouched. -/
def aset {α β : Type} [DecidableEq α] (l : List (α × β)) (k : α) (f : β → β) :
    List (α × β) :=
  l.map fun p => if p.1 = k then (p.1, f p.2) else p

/-- Hit on the `functools.lru_cache(maxsize=128)` of
`ModelBuilder.get_layer_at_z`: the cache is kept most-recent-first, and a
hit moves its key to the front. -/
def lruGet (cache : List (ℚ × LayerId)) (z : ℚ) :
    Option (LayerId × List (ℚ × LayerId)) :=
  match alookup cache z with
  | none => none
  | some v => some (v, (z, v) :: cache.filter fun p => decide (p.1 ≠ z))

/-- Record a freshly computed result in the lru cache, evicting the least
recently used entry beyond 128. -/
def lruPut (cache : List (ℚ × LayerId)) (z : ℚ) (v : LayerId) :
    List (ℚ × LayerId) :=
  ((z, v) :: cache.filter fun p => decide (p.1 ≠ z)).take 128

/-- `ModelBuilder` (model.py lines 374-386): the machine, the z-to-layer
dict, descent bookkeeping, the priming layer, the per-layer path lists and
statistic sample lists, the memoization cache of `get_layer_at_z`, and the
next fresh layer identity. -/
structure Builder where
  machine : Machine
  z_to_layer : List (ℚ × LayerId)
  last_layer_z : ℚ
  is_after_post_priming_descent : Bool
  priming_layer : Option LayerId
  priming_layer_z : Option ℚ
  layer_paths : List (LayerId × List (List Vec2))
  layer_to_temperatures : List (LayerId × List ℚ)
  layer_to_feedrates : List (LayerId × List ℚ)
  cache : List (ℚ × LayerId)
  next_layer_id : LayerId
deriving DecidableEq

/-- `ModelBuilder.__init__`: fresh machine, empty maps, `_last_layer_z = 0`. -/
def Builder.init : Builder :=
  { machine := Machine.init
    z_to_layer := []
    last_layer_z := 0
    is_after_post_priming_descent := false
    priming_layer := none
    priming_layer_z := none
    layer_paths := []
    layer_to_temperatures := []
    layer_to_feedrates := []
    cache := []
    next_layer_id := 0 }

/-- Create a fresh empty `Layer()` at `z` and register it together with its
empty statistics lists (model.py lines 563-568). -/
def Builder.create_layer (b : Builder) (z : ℚ) : LayerId × Builder :=
  let lid := b.next_layer_id
  (lid,
    { b with
      z_to_layer := b.z_to_layer ++ [(z, lid)]
      layer_paths := b.layer_paths ++ [(lid, [])]
      layer_to_temperatures := b.layer_to_temperatures ++ [(lid, [])]
      layer_to_feedrates := b.layer_to_feedrates ++ [(lid, [])]
      next_layer_id := lid + 1 })

/-- `ModelBuilder.get_layer_at_z` (model.py lines 519-570) including its
`@lru_cache(maxsize=128)` decoration: a z value asked before is answered
from the cache without the body running at all.  In the body, `Layer`
objects define neither `__bool__` nor `__len__`, so `if not target_layer:`
is a `None` test on the dict lookup; `dict.pop` on a missing key (no layer
recorded at `_last_layer_z`) raises `KeyError`.  Every normal exit caches
its result; an exception caches nothing. -/
def Builder.get_layer_at_z (b : Builder) (z : ℚ) :
    Except BuildError (LayerId × Builder) :=
  match lruGet b.cache z with
  | some (lid, cache') => .ok (lid, { b with cache := cache' })
  | none =>
    match alookup b.z_to_layer z with
    | some lid => .ok (lid, { b with cache := lruPut b.cache z lid })
    | none =>
      if z < b.last_layer_z then
        if b.is_after_post_priming_descent then
          .error (.post_priming_descent z b.last_layer_z)
        else if 1 < b.z_to_layer.length then
          .error (.late_effector_descent z b.last_layer_z b.z_to_layer.length)
        else
          match apop b.z_to_layer b.last_layer_z with
          | (none, _) => .error .key_error
          | (some plid, rest) =>
            let b' :=
              { b with
                z_to_layer := rest
                priming_layer := some plid
                priming_layer_z := some b.last_layer_z
                is_after_post_priming_descent := true }
            let created := b'.create_layer z
            .ok (created.1, { created.2 with cache := lruPut created.2.cache z created.1 })
      else
        let created := b.create_layer z
        .ok (created.1, { created.2 with cache := lruPut created.2.cache z created.1 })

/-- `ModelBuilder.add_segment_to_layer` (model.py lines 572-594) acting on
one layer's path list: start a new two-point path unless the last path
ends exactly at `source`, in which case append `destination` to it. -/
def add_segment (paths : List (List Vec2)) (source destination : Vec2) :
    List (List Vec2) :=
  match paths.getLast? with
  | none => paths ++ [[source, destination]]
  | some lastPath =>
    match lastPath.getLast? with
    | none => paths ++ [[source, destination]]
    | some lastPt =>
        if lastPt = source then paths.dropLast ++ [lastPath ++ [destination]]
        else paths ++ [[source, destination]]

/-- model.py lines 511-517: append the machine's current temperature and
feedrate as samples for the layer. -/
def Builder.record_samples (b : Builder) (lid : LayerId) : Builder :=
  { b with
    layer_to_temperatures :=
      aset b.layer_to_temperatures lid
        (fun l => l ++ [b.machine.state_current.temp_extruder])
    layer_to_feedrates :=
      aset b.layer_to_feedrates lid
        (fun l => l ++ [b.machine.state_current.feedrate]) }

/-- `ModelBuilder._handle_move` (model.py lines 450-517), run after the
machine has handled the command, so `machine.state_previous` is the
pre-command snapshot.  The deposition test is the source's: unchanged
absolute z, strictly increased absolute extruder value, and
`any([command.x, command.y])` — Python truthiness, so a provided 0 counts
as absent.  A line move appends its segment; an arc move calls
`CircularArcInterpolator.interpolate` (pivot = `LVector2d(command.i,
command.j)`, clockwise iff G2), whose exception — `TypeError` on every
input, see `interpolate` — propagates and aborts the build.  The loop
over the interpolated points (model.py lines 504-509) and the subsequent
sample recording are therefore dead code on the arc path and are not
modelled in the unreachable success branch. -/
def Builder.handle_move (b : Builder) (c : Command) : Except BuildError Builder :=
  let pos_prev := b.machine.state_previous.position_abs
  let pos_cur := b.machine.state_current.position_abs
  let xyz := move_xyz c
  if decide (pos_prev.z = pos_cur.z)
      && decide (b.machine.state_previous.extruder_abs
          < b.machine.state_current.extruder_abs)
      && (pyTruthy xyz.1 || pyTruthy xyz.2.1) then
    match b.get_layer_at_z pos_cur.z with
    | .error err => .error err
    | .ok (lid, b1) =>
      let b2 := { b1 with last_layer_z := pos_cur.z }
      let source := pos_prev.xy
      let destination := pos_cur.xy
      match c with
      | .line_move _ _ _ _ _ _ _ _ =>
          let newPaths := aset b2.layer_paths lid
            (fun ps => add_segment ps source destination)
          let b3 := { b2 with layer_paths := newPaths }
          .ok (b3.record_samples lid)
      | .arc_move cw _ _ i j _ _ =>
          let pivot : Vec2 := ⟨i.getD 0, j.getD 0⟩
          match interpolate source destination pivot cw with
          | .error e => .error (.arc_error e)
          | .ok _ => .ok b2
      | _ => .ok b2
  else
    .ok b

/-- One iteration of the `build_model` loop (model.py lines 406-410): feed
the command to the machine, then, when it is a move, to `_handle_move`. -/
def Builder.handle_gcode_command (b : Builder) (c : Command) :
    Except BuildError Builder :=
  let b' := { b with machine := b.machine.handle_command c }
  if c.isMove then Builder.handle_move b' c else .ok b'

/-- Replay a command stream through a fresh `ModelBuilder`. -/
def Builder.run (cmds : List Command) : Except BuildError Builder :=
  cmds.foldlM Builder.handle_gcode_command Builder.init

/-! ## Model finalization (`model.py` lines 388-436 and 23-94)

`build_model` pads the paths of the layers still in `z_to_layer` (the
demoted priming layer was popped from that dict: neither the padding pass
nor the statistics pass visits it), computes per-layer statistics, and
assembles the `Model` with its layers sorted by ascending z (1-based
indices).  The endpoint-padding geometry divides by a Euclidean norm, so
it is carried out over `ℝ`. -/

/-- Python `min(l)` for a non-empty list (`min([])` raises `ValueError`;
the builder only queries non-empty sample lists). -/
def qmin : List ℚ → Option ℚ
  | [] => none
  | x :: rest => some (rest.foldl min x)

/-- Python `max(l)` for a non-empty list. -/
def qmax : List ℚ → Option ℚ
  | [] => none
  | x :: rest => some (rest.foldl max x)

/-- `statistics.mean`; the builder never queries an empty sample list
(where the source would raise `StatisticsError`). -/
def mean (l : List ℚ) : ℚ := l.sum / l.length

/-- Stable insertion of one (z, layer) pair into a z-sorted list. -/
def insertByZ (p : ℚ × LayerId) : List (ℚ × LayerId) → List (ℚ × LayerId)
  | [] => [p]
  | q :: rest => if p.1 < q.1 then p :: q :: rest else q :: insertByZ p rest

/-- `sorted(layer_to_z.items(), key=lambda item: item[1])` in
`Model.__init__` (model.py lines 46-51), oriented as the builder's
(z, layer) pairs: sort by ascending z. -/
def sortByZ : List (ℚ × LayerId) → List (ℚ × LayerId)
  | [] => []
  | p :: rest => insertByZ p (sortByZ rest)

/-- Real 2D point for the padding geometry. -/
abbrev RVec2 := ℝ × ℝ

/-- Cast a builder point into the real plane. -/
noncomputable def Vec2.toR (v : Vec2) : RVec2 := ((v.x : ℝ), (v.y : ℝ))

/-- Euclidean length (panda3d `length()`). -/
noncomputable def rlen (v : RVec2) : ℝ := Real.sqrt (v.1 ^ 2 + v.2 ^ 2)

/-- panda3d `normalized()`: the vector scaled to unit length; a zero
vector normalizes to zero. -/
noncomputable def normalizedR (v : RVec2) : RVec2 :=
  if rlen v = 0 then (0, 0) else (v.1 / rlen v, v.2 / rlen v)

/-- One padded endpoint: `p + (p - neighbor).normalized() * length`. -/
noncomputable def pad_point (length : ℝ) (p neighbor : RVec2) : RVec2 :=
  p + length • normalizedR (p - neighbor)

/-- `Path.add_padding` (path.py lines 19-31): first `self[0]` is shifted
away from `self[1]`, then `self[-1]` is shifted away from the — by then
possibly already updated — `self[-2]`.  A `Path` always holds at least
two points; on shorter lists the source would raise `IndexError`, a case
the builder never produces, returned unchanged here. -/
noncomputable def add_padding (length : ℝ) (path : List RVec2) : List RVec2 :=
  if h : 2 ≤ path.length then
    let p0 := path.get ⟨0, by omega⟩
    let p1 := path.get ⟨1, by omega⟩
    let path1 := path.set 0 (pad_point length p0 p1)
    let n := path.length
    let q0 := path1.get ⟨n - 1, by simp [path1, List.length_set]; omega⟩
    let q1 := path1.get ⟨n - 2, by simp [path1, List.length_set]; omega⟩
    path1.set (n - 1) (pad_point length q0 q1)
  else path

/-- A finalized `Layer` as the `Model` exposes it: its z position, its
(possibly padded) paths in the real plane, and its statistics fields —
`None` unless the statistics pass visited the layer. -/
structure FinalLayer where
  z : ℚ
  paths : List (List RVec2)
  temperature_min : Option ℚ
  temperature_max : Option ℚ
  temperature_avg : Option ℚ
  feedrate_min : Option ℚ
  feedrate_max : Option ℚ
  feedrate_avg : Option ℚ

/-- The finalized `Model` (model.py lines 23-54): layers in ascending-z
order (1-based index `i` is `layers[i-1]`), the optional priming layer
with its z, and the nozzle diameter. -/
structure Model where
  layers : List FinalLayer
  priming_layer : Option FinalLayer
  priming_layer_z : Option ℚ
  nozzle_diam : ℚ

/-- The statistics fields computed for a layer of `z_to_layer`
(model.py lines 417-427).  Translated line by line: note line 427,
`layer.feedrate_avg = mean(temperatures)` — the feedrate average is
assigned the mean of the TEMPERATURE samples. -/
def layer_stats (temps feeds : List ℚ) :
    Option ℚ × Option ℚ × Option ℚ × Option ℚ × Option ℚ × Option ℚ :=
  (qmin temps, qmax temps, some (mean temps),
   qmin feeds, qmax feeds, some (mean temps))

/-- Finalize one layer object of the builder: its raw paths cast to the
real plane, padded and given statistics only when `visited` (i.e. the
layer is still in `z_to_layer`; the demoted priming layer is not). -/
noncomputable def finalize_layer (b : Builder) (nozzle_diam : ℚ) (visited : Bool)
    (z : ℚ) (lid : LayerId) : FinalLayer :=
  let raw := ((alookup b.layer_paths lid).getD []).map fun p => p.map Vec2.toR
  if visited then
    let stats := layer_stats ((alookup b.layer_to_temperatures lid).getD [])
      ((alookup b.layer_to_feedrates lid).getD [])
    { z := z
      paths := raw.map (add_padding ((nozzle_diam : ℝ) / 2))
      temperature_min := stats.1
      temperature_max := stats.2.1
      temperature_avg := stats.2.2.1
      feedrate_min := stats.2.2.2.1
      feedrate_max := stats.2.2.2.2.1
      feedrate_avg := stats.2.2.2.2.2 }
  else
    { z := z
      paths := raw
      temperature_min := none
      temperature_max := none
      temperature_avg := none
      feedrate_min := none
      feedrate_max := none
      feedrate_avg := none }

/-- `ModelBuilder.build_model` (model.py lines 388-436): replay the stream,
pad every path of every layer of `z_to_layer`, compute those layers'
statistics, and build the `Model` (layers sorted ascending by z).  The
priming layer is delivered as stored: unpadded paths, statistics unset. -/
noncomputable def build_model (cmds : List Command) (nozzle_diam : ℚ) :
    Except BuildError Model :=
  (Builder.run cmds).map fun b =>
    { layers := (sortByZ b.z_to_layer).map fun p => finalize_layer b nozzle_diam true p.1 p.2
      priming_layer := b.priming_layer.map fun lid =>
        finalize_layer b nozzle_diam false (b.priming_layer_z.getD 0) lid
      priming_layer_z := b.priming_layer_z
      nozzle_diam := nozzle_diam }

/-- `Model.get_layer_z`: the z position of the 1-based layer index
(a missing index is a Python `KeyError`, modelled as `none`). -/
def Model.get_layer_z (m : Model) (index : Nat) : Option ℚ :=
  (m.layers.get? (index - 1)).map (·.z)

/-- `Model.get_layer_height` (model.py lines 71-94): layer 1's height is
its z position; otherwise the difference to the previous layer's z,
rounded to 3 decimal places. -/
def Model.get_layer_height (m : Model) (index : Nat) : Option ℚ :=
  if index = 1 then m.get_layer_z 1
  else
    match m.get_layer_z index, m.get_layer_z (index - 1) with
    | some a, some b => some (round3 (a - b))
    | _, _ => none

/-! ## Object identity: the shared default `Point3D` arguments

`MachineState.__init__` (machine.py lines 250-261) declares
`position: Point3D = Point3D(0, 0, 0)` and
`offset_position: Point3D = Point3D(0, 0, 0)`.  CPython evaluates default
arguments once, when `machine.py` is imported, so every `MachineState()`
constructed without arguments binds `self.position` and
`self.offset_position` to the same two module-lifetime `Point3D` objects.
The value-level `Machine` above is faithful for a single machine replaying
its own stream (`MachineState.update` copies its points before any handler
runs); object identity across machine constructions in one process needs
the explicit store below: `Point3D` objects are cells of a `Heap`, and
machine states hold cell references. -/

/-- The live `Point3D` objects of the process, by allocation index. -/
structure Heap where
  cells : List Pt3
deriving DecidableEq

/-- Read a `Point3D` cell. -/
def Heap.get (h : Heap) (r : Nat) : Pt3 := h.cells.getD r ⟨0, 0, 0⟩

/-- Mutate a `Point3D` cell in place. -/
def Heap.set (h : Heap) (r : Nat) (p : Pt3) : Heap := ⟨h.cells.set r p⟩

/-- Allocate a fresh `Point3D` object. -/
def Heap.alloc (h : Heap) (p : Pt3) : Nat × Heap := (h.cells.length, ⟨h.cells ++ [p]⟩)

/-- The heap right after `machine.py` is imported: cells 0 and 1 are the
two default-argument `Point3D(0, 0, 0)` objects. -/
def Heap.init : Heap := ⟨[⟨0, 0, 0⟩, ⟨0, 0, 0⟩]⟩

/-- `MachineState` with its two point fields as object references. -/
structure HMachineState where
  position : Nat
  offset_position : Nat
  extruder : ℚ
  offset_extruder : ℚ
  feedrate : ℚ
  temp_extruder : ℚ
  is_rel_positioning : Bool
  is_rel_extruder : Bool
  is_imperial : Bool
deriving DecidableEq

/-- `MachineState()` with no arguments: fresh scalars, the point fields
bound to the shared default objects (cells 0 and 1). -/
def HMachineState.mk_default : HMachineState :=
  { position := 0
    offset_position := 1
    extruder := 0
    offset_extruder := 0
    feedrate := 40
    temp_extruder := 0
    is_rel_positioning := false
    is_rel_extruder := false
    is_imperial := false }

/-- `MachineState.update` on the reference model:
`self.position = Point3D(state.position)` allocates fresh copies of both
points; scalars are copied directly — with source line 312's
`self.temp_extruder = state.feedrate`. -/
def HMachineState.update (heap : Heap) (state : HMachineState) :
    HMachineState × Heap :=
  let a1 := heap.alloc (heap.get state.position)
  let a2 := a1.2.alloc (a1.2.get state.offset_position)
  ({ position := a1.1
     offset_position := a2.1
     extruder := state.extruder
     offset_extruder := state.offset_extruder
     feedrate := state.feedrate
     temp_extruder := state.feedrate
     is_rel_positioning := state.is_rel_positioning
     is_rel_extruder := state.is_rel_extruder
     is_imperial := state.is_imperial }, a2.2)

/-- `Machine()`: two argument-less `MachineState()`s, both referencing the
shared default points. -/
structure HMachine where
  state_previous : HMachineState
  state_current : HMachineState
deriving DecidableEq

/-- A `Machine()` construction (allocates no points of its own). -/
def HMachine.init : HMachine := ⟨.mk_default, .mk_default⟩

/-- `Machine._handle_move` on the reference model: the relative branch
rebinds `state_current.position` to a freshly allocated sum (then rounded);
the absolute branch writes the provided coordinates into the current
position object in place — mutating the shared default object if the
machine still references it. -/
def HMachine.handle_move (heap : Heap) (prev cur : HMachineState) (c : Command) :
    HMachineState × Heap :=
  let cur :=
    match move_f c with
    | some fv => { cur with feedrate := fv }
    | none => cur
  let cur :=
    match move_e c with
    | some ev =>
        { cur with extruder := if prev.is_rel_extruder then prev.extruder + ev else ev }
    | none => cur
  let xyz := move_xyz c
  if prev.is_rel_positioning then
    let pp := heap.get prev.position
    let a := heap.alloc
      ⟨round3 (pp.x + xyz.1.getD 0),
       round3 (pp.y + xyz.2.1.getD 0),
       round3 (pp.z + xyz.2.2.getD 0)⟩
    ({ cur with position := a.1 }, a.2)
  else
    let mult : ℚ := if prev.is_imperial then 254 / 10 else 1
    let p := heap.get cur.position
    let p := match xyz.1 with | some v => { p with x := v * mult } | none => p
    let p := match xyz.2.1 with | some v => { p with y := v * mult } | none => p
    let p := match xyz.2.2 with | some v => { p with z := v * mult } | none => p
    (cur, heap.set cur.position p)

/-- `Machine.handle_command` on the reference model. -/
def HMachine.handle_command (s : HMachine × Heap) (c : Command) : HMachine × Heap :=
  let u := HMachineState.update s.2 s.1.state_current
  let prev := u.1
  let heap := u.2
  let cur := s.1.state_current
  match c with
  | .g20 => (⟨prev, { cur with is_imperial := true }⟩, heap)
  | .g21 => (⟨prev, { cur with is_imperial := false }⟩, heap)
  | .g90 => (⟨prev, { cur with is_rel_positioning := false }⟩, heap)
  | .g91 => (⟨prev, { cur with is_rel_positioning := true }⟩, heap)
  | .m82 => (⟨prev, { cur with is_rel_extruder := false }⟩, heap)
  | .m83 => (⟨prev, { cur with is_rel_extruder := true }⟩, heap)
  | .m104 sv _ _ => (⟨prev, { cur with temp_extruder := sv }⟩, heap)
  | .m109 sv _ _ => (⟨prev, { cur with temp_extruder := sv }⟩, heap)
  | .g28 x y z =>
      if !(x || y || z) then
        let a1 := heap.alloc ⟨0, 0, 0⟩
        let a2 := a1.2.alloc ⟨0, 0, 0⟩
        (⟨prev, { cur with offset_position := a1.1, position := a2.1 }⟩, a2.2)
      else
        let heap := if x then
            let o := heap.get cur.offset_position
            let h1 := heap.set cur.offset_position { o with x := 0 }
            h1.set cur.position { h1.get cur.position with x := 0 }
          else heap
        let heap := if y then
            let o := heap.get cur.offset_position
            let h1 := heap.set cur.offset_position { o with y := 0 }
            h1.set cur.position { h1.get cur.position with y := 0 }
          else heap
        let heap := if z then
            let o := heap.get cur.offset_position
            let h1 := heap.set cur.offset_position { o with z := 0 }
            h1.set cur.position { h1.get cur.position with z := 0 }
          else heap
        (⟨prev, cur⟩, heap)
  | .g92 x y z e =>
      let pp := heap.get prev.position
      let o := heap.get cur.offset_position
      let o := if pyTruthy x then { o with x := pp.x - x.getD 0 } else o
      let o := if pyTruthy y then { o with y := pp.y - y.getD 0 } else o
      let o := if pyTruthy z then { o with z := pp.z - z.getD 0 } else o
      let heap := heap.set cur.offset_position o
      let cur :=
        if pyTruthy e then { cur with offset_extruder := prev.extruder - e.getD 0 } else cur
      (⟨prev, cur⟩, heap)
  | .line_move xx yy zz ee ff hh rr ss =>
      let r := HMachine.handle_move heap prev cur (.line_move xx yy zz ee ff hh rr ss)
      (⟨prev, r.1⟩, r.2)
  | .arc_move cw xx yy ii jj ee ff =>
      let r := HMachine.handle_move heap prev cur (.arc_move cw xx yy ii jj ee ff)
      (⟨prev, r.1⟩, r.2)

/-- Replay a command list on one machine, threading the process heap. -/
def HMachine.run (s : HMachine × Heap) (cmds : List Command) : HMachine × Heap :=
  cmds.foldl HMachine.handle_command s

/-! ## Concrete command streams used as inputs -/

/-- A `G1 X<x> E<e>`: in absolute mode from a same-z position, a deposition
move (nonzero x, increasing extruder). -/
def g1xe (x e : ℚ) : Command := .line_move (some x) none none (some e) none none none none

/-- A `G1 Z<z>`: moves the effector to a new z without extruding. -/
def g1z (z : ℚ) : Command := .line_move none none (some z) none none none none none

/-- A `G1 E5`. -/
def g1e5 : Command := .line_move none none none (some 5) none none none none

/-- Deposition z sequence 0.5, 0.2, 0.7, 0.5: a layer at 0.5, its demotion
to priming layer on the descent to 0.2, an ascent to 0.7, and a descent
back to the demoted priming layer z (0.5), which the memoized
`get_layer_at_z` answers from its cache. -/
def cmds_cached_descent : List Command :=
  [g1z (1/2), g1xe 1 1, g1z (1/5), g1xe 2 2, g1z (7/10), g1xe 3 3, g1z (1/2), g1xe 4 4]

/-- Deposition z sequence 0.5, 0.2, 0.7, 0.3: as above, but the final
descent goes to a fresh z (0.3) and so reaches the descent checks. -/
def cmds_fresh_descent : List Command :=
  [g1z (1/2), g1xe 1 1, g1z (1/5), g1xe 2 2, g1z (7/10), g1xe 3 3, g1z (3/10), g1xe 4 4]

/-- One deposition move from the initial machine state: temperature
samples [0], feedrate samples [40]. -/
def cmds_single_move : List Command := [g1xe 5 1]

/-- A deposition at z 0.5 followed by a deposition at z 0.2: the 0.5 layer
is demoted to the priming layer with one path [(0,0), (1,0)]. -/
def cmds_priming : List Command := [g1z (1/2), g1xe 1 1, g1z (1/5), g1xe 2 2]

/-- Deposition moves at z = 0.2, 0.2, 0.4, 0.4 with the extruder increasing
on each: exactly two layers. -/
def cmds_two_layers : List Command :=
  [g1z (1/5), g1xe 1 1, g1xe 2 2, g1z (2/5), g1xe 3 3, g1xe 4 4]

/-- A deposition move, then a move with `X0` (provided, value 0) at the
same z with the extruder still increasing. -/
def cmds_zero_x : List Command :=
  [g1xe 5 1, .line_move (some 0) none none (some 2) none none none none]

/-! ## Theorems -/

/-- The real square root is monotone. -/
theorem sqrt_mono : Monotone Real.sqrt := fun _ _ h => Real.sqrt_le_sqrt h

/-- The squared-distance test `isclose_sqrt_sq` is exactly
`math.isclose(√s1, √s2, rel_tol=0.01, abs_tol=0)` on the (nonnegative)
squared lengths: the rational test is a faithful, executable rendering of
the floating-point test the source performs on the two lengths. -/
theorem isclose_sqrt_sq_correct (s1 s2 : ℚ) (h1 : 0 ≤ s1) (h2 : 0 ≤ s2) :
    isclose_sqrt_sq s1 s2 = true ↔
      |Real.sqrt (s1 : ℝ) - Real.sqrt (s2 : ℝ)| ≤
        1 / 100 * max (Real.sqrt (s1 : ℝ)) (Real.sqrt (s2 : ℝ)) := by
  have h1' : (0 : ℝ) ≤ (s1 : ℚ) := by exact_mod_cast h1
  have h2' : (0 : ℝ) ≤ (s2 : ℚ) := by exact_mod_cast h2
  have hmax : max (Real.sqrt (s1 : ℝ)) (Real.sqrt (s2 : ℝ))
      = Real.sqrt (max (s1 : ℝ) (s2 : ℝ)) := (sqrt_mono.map_max).symm
  have hmin : min (Real.sqrt (s1 : ℝ)) (Real.sqrt (s2 : ℝ))
      = Real.sqrt (min (s1 : ℝ) (s2 : ℝ)) := (sqrt_mono.map_min).symm
  have habs : |Real.sqrt (s1 : ℝ) - Real.sqrt (s2 : ℝ)|
      = max (Real.sqrt (s1 : ℝ)) (Real.sqrt (s2 : ℝ))
        - min (Real.sqrt (s1 : ℝ)) (Real.sqrt (s2 : ℝ)) := by
    rw [abs_sub_comm]
    exact (max_sub_min_eq_abs (Real.sqrt (s1 : ℝ)) (Real.sqrt (s2 : ℝ))).symm
  rw [habs, hmax, hmin]
  have hM : (0 : ℝ) ≤ max (s1 : ℝ) (s2 : ℝ) := le_max_of_le_left h1'
  have hfact : Real.sqrt ((9801 : ℝ) / 10000 * max (s1 : ℝ) (s2 : ℝ))
      = 99 / 100 * Real.sqrt (max (s1 : ℝ) (s2 : ℝ)) := by
    rw [Real.sqrt_mul (by norm_num : (0:ℝ) ≤ (9801:ℝ)/10000)]
    rw [show ((9801 : ℝ) / 10000) = (99 / 100 : ℝ) ^ 2 by norm_num,
      Real.sqrt_sq (by norm_num : (0:ℝ) ≤ (99:ℝ)/100)]
  constructor
  · intro h
    have hq : (9801 : ℚ) / 10000 * max s1 s2 ≤ min s1 s2 := by
      simpa [isclose_sqrt_sq] using h
    have hr : (9801 : ℝ) / 10000 * max (s1 : ℝ) (s2 : ℝ) ≤ min (s1 : ℝ) (s2 : ℝ) := by
      have hr0 : (((9801 : ℚ) / 10000 * max s1 s2 : ℚ) : ℝ) ≤ ((min s1 s2 : ℚ) : ℝ) :=
        Rat.cast_le.mpr hq
      push_cast at hr0
      exact hr0
    have := Real.sqrt_le_sqrt hr
    rw [hfact] at this
    nlinarith [Real.sqrt_nonneg (max (s1 : ℝ) (s2 : ℝ))]
  · intro h
    have hs : (99 : ℝ) / 100 * Real.sqrt (max (s1 : ℝ) (s2 : ℝ))
        ≤ Real.sqrt (min (s1 : ℝ) (s2 : ℝ)) := by linarith
    rw [← hfact] at hs
    have := (Real.sqrt_le_sqrt_iff (le_min h1' h2')).mp hs
    have hq : (9801 : ℚ) / 10000 * max s1 s2 ≤ min s1 s2 := by
      have : ((9801 : ℚ) / 10000 * max s1 s2 : ℝ) ≤ ((min s1 s2 : ℚ) : ℝ) := by
        push_cast
        convert this using 2
      exact_mod_cast this
    simpa [isclose_sqrt_sq] using hq

/-- C1: the arc interpolator raises `TypeError` on every input and its
equidistance `ValueError` is unreachable.  The claim (and the docstring of
`CircularArcInterpolator.interpolate`) says `ValueError` is raised exactly
when source and destination are not equidistant from the pivot; in the
code, line 82 binds the `length` method instead of calling it, so
`math.isclose` raises `TypeError` before any comparison: the call neither
succeeds on the equidistant input src = (1,0), dst = (0,1), pivot = (0,0)
(both distances 1) nor raises `ValueError` on the non-equidistant
dst = (5,0) — it raises `TypeError` at every input, in particular at
both of these. -/
theorem interpolate_always_type_error :
    (∀ (src dst pivot : Vec2) (cw : Bool),
        interpolate src dst pivot cw = .error .type_error)
      ∧ (interpolate ⟨1, 0⟩ ⟨0, 1⟩ ⟨0, 0⟩ false = .error .type_error)
      ∧ (interpolate ⟨1, 0⟩ ⟨0, 1⟩ ⟨0, 0⟩ true = .error .type_error)
      ∧ (interpolate ⟨1, 0⟩ ⟨5, 0⟩ ⟨0, 0⟩ false = .error .type_error)
      ∧ (∀ (src dst pivot : Vec2) (cw : Bool),
          interpolate src dst pivot cw ≠ .error .value_error
            ∧ ∀ u, interpolate src dst pivot cw ≠ .ok u) := by
  refine ⟨fun _ _ _ _ => rfl, rfl, rfl, rfl, fun src dst pivot cw => ⟨?_, ?_⟩⟩
  · intro h
    injection h with h'
    cases h'
  · intro u h
    injection h

/-- C2: the `lru_cache` memoization of `get_layer_at_z` bypasses the
post-priming descent check for a z requested earlier in the build.  On the
deposition z sequence 0.5, 0.2, 0.7, 0.5 the build SUCCEEDS: the final
descent back to the demoted priming layer z (0.5) is answered from the
cache, the priming layer (id 0) receives the new segment
[(3,0), (4,0)], and no `PostPrimingDescentError` is raised — while the
same stream descending to the fresh z 0.3 does raise it. -/
theorem cached_z_descent_not_detected :
    ((Builder.run cmds_cached_descent).map fun b =>
        (b.priming_layer, b.priming_layer_z, b.is_after_post_priming_descent))
      = .ok (some 0, some (1/2), true)
      ∧ ((Builder.run cmds_cached_descent).map fun b =>
          (alookup b.layer_paths 0, b.last_layer_z))
        = .ok (some [[⟨0, 0⟩, ⟨1, 0⟩], [⟨3, 0⟩, ⟨4, 0⟩]], 1/2)
      ∧ ((Builder.run cmds_cached_descent).map fun b => b.z_to_layer)
        = .ok [(1/5, 1), (7/10, 2)]
      ∧ Builder.run cmds_fresh_descent
          = .error (.post_priming_descent (3/10) (7/10)) := by
  refine ⟨?_, ?_, ?_, ?_⟩ <;> with_unfolding_all decide

/-- Euclidean lengths are nonnegative. -/
theorem rlen_nonneg (v : RVec2) : 0 ≤ rlen v := Real.sqrt_nonneg _

/-- A vector has length 0 exactly when it is the zero vector. -/
theorem rlen_eq_zero_iff (v : RVec2) : rlen v = 0 ↔ v = (0, 0) := by
  unfold rlen
  rw [Real.sqrt_eq_zero (by positivity)]
  constructor
  · intro h
    have h1 : v.1 = 0 := by nlinarith [sq_nonneg v.1, sq_nonneg v.2]
    have h2 : v.2 = 0 := by nlinarith [sq_nonneg v.1, sq_nonneg v.2]
    exact Prod.ext h1 h2
  · intro h
    rw [h]
    norm_num

/-- `normalized()` is scaling by the reciprocal length (also at zero). -/
theorem normalizedR_eq_smul (v : RVec2) : normalizedR v = (1 / rlen v) • v := by
  unfold normalizedR
  by_cases h : rlen v = 0
  · rw [if_pos h, h]
    rw [(rlen_eq_zero_iff v).mp h]
    simp
  · rw [if_neg h]
    simp [Prod.smul_def, smul_eq_mul]
    constructor <;> ring

/-- Length scales with the absolute value of a scalar factor. -/
theorem rlen_smul (c : ℝ) (v : RVec2) : rlen (c • v) = |c| * rlen v := by
  unfold rlen
  have h1 : (c • v).1 = c * v.1 := rfl
  have h2 : (c • v).2 = c * v.2 := rfl
  rw [h1, h2]
  rw [show (c * v.1) ^ 2 + (c * v.2) ^ 2 = c ^ 2 * (v.1 ^ 2 + v.2 ^ 2) by ring]
  rw [Real.sqrt_mul (sq_nonneg c), Real.sqrt_sq_eq_abs]

/-- Normalizing is invariant under scaling by a positive factor. -/
theorem normalizedR_smul_pos (c : ℝ) (hc : 0 < c) (v : RVec2) :
    normalizedR (c • v) = normalizedR v := by
  by_cases h : rlen v = 0
  · have hv : v = (0, 0) := (rlen_eq_zero_iff v).mp h
    rw [hv]
    have : c • ((0, 0) : RVec2) = (0, 0) := by
      rw [Prod.smul_def]
      simp
    rw [this]
  · rw [normalizedR_eq_smul, normalizedR_eq_smul, rlen_smul, smul_smul]
    congr 1
    rw [abs_of_pos hc]
    have hc0 : c ≠ 0 := ne_of_gt hc
    field_simp

/-- Normalizing commutes with negation. -/
theorem normalizedR_neg (v : RVec2) : normalizedR (-v) = -normalizedR v := by
  have hr : rlen (-v) = rlen v := by
    rw [show -v = (-1 : ℝ) • v from (neg_one_smul ℝ v).symm, rlen_smul]
    norm_num
  calc normalizedR (-v) = (1 / rlen (-v)) • (-v) := normalizedR_eq_smul _
    _ = (1 / rlen v) • (-v) := by rw [hr]
    _ = -((1 / rlen v) • v) := smul_neg _ _
    _ = -normalizedR v := by rw [normalizedR_eq_smul]

/-- A normalized nonzero vector has length 1. -/
theorem rlen_normalizedR (v : RVec2) (hv : v ≠ 0) : rlen (normalizedR v) = 1 := by
  have hr : rlen v ≠ 0 := fun h => hv ((rlen_eq_zero_iff v).mp h)
  have hrpos : 0 < rlen v := lt_of_le_of_ne (rlen_nonneg v) (Ne.symm hr)
  rw [normalizedR_eq_smul, rlen_smul, abs_of_pos (by positivity)]
  field_simp

/-- `add_padding` on a two-point path: the first point is padded against
the second, and the last against the ALREADY UPDATED first (the source
mutates `self[0]` before reading `self[-2]`). -/
theorem add_padding_pair (L : ℝ) (a b : RVec2) :
    add_padding L [a, b] = [pad_point L a b, pad_point L b (pad_point L a b)] := by
  simp [add_padding]

/-- Padding the first point does not change the direction from it to the
second point, as long as the padding length is nonnegative and the two
points differ: so the in-place aliasing of the source is harmless there. -/
theorem normalizedR_sub_pad_point (L : ℝ) (hL : 0 ≤ L) (a b : RVec2) (hab : a ≠ b) :
    normalizedR (b - pad_point L a b) = normalizedR (b - a) := by
  have hba : b - a ≠ 0 := sub_ne_zero.mpr (Ne.symm hab)
  have hr : rlen (b - a) ≠ 0 := by
    intro h
    exact hba ((rlen_eq_zero_iff _).mp h)
  have hrpos : 0 < rlen (b - a) := lt_of_le_of_ne (rlen_nonneg _) (Ne.symm hr)
  have hkey : b - pad_point L a b = (1 + L / rlen (b - a)) • (b - a) := by
    unfold pad_point
    rw [show a - b = -(b - a) from (neg_sub b a).symm, normalizedR_neg,
      normalizedR_eq_smul]
    match_scalars <;> field_simp
  rw [hkey]
  exact normalizedR_smul_pos _ (by positivity) _

/-- On a two-point path with distinct points and nonnegative length, both
padded endpoints are shifted by `L` along the direction away from the
OTHER ORIGINAL point. -/
theorem add_padding_pair_endpoints (L : ℝ) (hL : 0 ≤ L) (a b : RVec2) (hab : a ≠ b) :
    add_padding L [a, b] = [a + L • normalizedR (a - b), b + L • normalizedR (b - a)] := by
  rw [add_padding_pair]
  have h2 : pad_point L b (pad_point L a b) = b + L • normalizedR (b - a) :=
    congrArg (fun w => b + L • w) (normalizedR_sub_pad_point L hL a b hab)
  rw [h2]
  rfl

/-- Padding preserves the number of points of a path. -/
theorem add_padding_length (L : ℝ) (p : List RVec2) :
    (add_padding L p).length = p.length := by
  unfold add_padding
  split
  · simp
  · rfl

/-- Padding leaves every interior point unchanged. -/
theorem add_padding_interior (L : ℝ) (p : List RVec2) (i : Nat) (h0 : 0 < i)
    (hi : i < p.length - 1) : (add_padding L p)[i]? = p[i]? := by
  unfold add_padding
  split
  · rw [List.getElem?_set_ne (by omega), List.getElem?_set_ne (by omega)]
  · rfl

/-- The padded first point is the original first point shifted by `L`
along the direction away from the original second point. -/
theorem add_padding_head (L : ℝ) (p : List RVec2) (a b : RVec2)
    (h0 : p[0]? = some a) (h1 : p[1]? = some b) :
    (add_padding L p)[0]? = some (a + L • normalizedR (a - b)) := by
  have hlen : 2 ≤ p.length := by
    obtain ⟨h', _⟩ := List.getElem?_eq_some_iff.mp h1
    omega
  unfold add_padding
  rw [dif_pos hlen]
  rw [List.getElem?_set_ne (by omega), List.getElem?_set_self (by simpa using by omega)]
  have ha : p.get ⟨0, by omega⟩ = a := by
    obtain ⟨h', rfl⟩ := List.getElem?_eq_some_iff.mp h0
    rfl
  have hb : p.get ⟨1, by omega⟩ = b := by
    obtain ⟨h', rfl⟩ := List.getElem?_eq_some_iff.mp h1
    rfl
  rw [ha, hb]
  rfl

/-- On a path of three or more points the padded last point is the
original last point shifted by `L` along the direction away from the
original second-to-last point (no aliasing with the first point there). -/
theorem add_padding_last (L : ℝ) (p : List RVec2) (x y : RVec2) (h3 : 3 ≤ p.length)
    (hx : p[p.length - 2]? = some x) (hy : p[p.length - 1]? = some y) :
    (add_padding L p)[p.length - 1]? = some (y + L • normalizedR (y - x)) := by
  obtain ⟨hx', hxv⟩ := List.getElem?_eq_some_iff.mp hx
  obtain ⟨hy', hyv⟩ := List.getElem?_eq_some_iff.mp hy
  unfold add_padding
  rw [dif_pos (by omega : 2 ≤ p.length)]
  rw [List.getElem?_set_self (by simp; omega)]
  simp only [List.get_eq_getElem, List.getElem_set_ne (by omega : (0 : ℕ) ≠ p.length - 1),
    List.getElem_set_ne (by omega : (0 : ℕ) ≠ p.length - 2)]
  rw [show p[p.length - 1] = y from hyv, show p[p.length - 2] = x from hxv]
  rfl

/-- C3 counterexample: the priming layer of a finished build keeps its RAW
paths — `build_model` pads only the paths of layers still in `z_to_layer`,
and the demoted priming layer was popped from that dict.  On
`cmds_priming` with nozzle diameter 1, the priming layer path is exactly
[(0,0), (1,0)], and applying the endpoint padding the claim requires
(length 1/2) would have changed it. -/
theorem priming_layer_paths_left_unpadded :
    ((build_model cmds_priming 1).map fun m => m.priming_layer.map (·.paths))
      = .ok (some [[Vec2.toR ⟨0, 0⟩, Vec2.toR ⟨1, 0⟩]])
      ∧ add_padding ((1 : ℝ) / 2) [Vec2.toR ⟨0, 0⟩, Vec2.toR ⟨1, 0⟩]
          ≠ [Vec2.toR ⟨0, 0⟩, Vec2.toR ⟨1, 0⟩] := by
  constructor
  · with_unfolding_all rfl
  · intro h
    have h0 := congrArg (fun l => l[0]?) h
    simp only at h0
    rw [add_padding_head ((1 : ℝ) / 2) [Vec2.toR ⟨0, 0⟩, Vec2.toR ⟨1, 0⟩]
      (Vec2.toR ⟨0, 0⟩) (Vec2.toR ⟨1, 0⟩) rfl rfl] at h0
    have h1 : Vec2.toR ⟨0, 0⟩ + ((1 : ℝ) / 2) •
        normalizedR (Vec2.toR ⟨0, 0⟩ - Vec2.toR ⟨1, 0⟩) = Vec2.toR ⟨0, 0⟩ := by
      injection h0
    have hsub : Vec2.toR ⟨0, 0⟩ - Vec2.toR ⟨1, 0⟩ = ((-1 : ℝ), (0 : ℝ)) := by
      simp [Vec2.toR, Prod.ext_iff]
    have hn : normalizedR ((-1 : ℝ), (0 : ℝ)) = ((-1 : ℝ), (0 : ℝ)) := by
      unfold normalizedR rlen
      norm_num
    rw [hsub, hn] at h1
    have h2 : ((1 : ℝ) / 2) • ((-1 : ℝ), (0 : ℝ)) = (0 : RVec2) :=
      add_right_eq_self.mp h1
    rw [Prod.ext_iff] at h2
    have := h2.1
    simp [Prod.smul_def] at this

/-- C3 (amended): a finished build pads every path of every indexed layer
exactly once, with padding length nozzle_diameter / 2, and leaves the
priming layer paths raw; one application of `add_padding` keeps the point
count, keeps every interior point, shifts the first point by `L` away from
the second and — on paths of three or more points, and likewise on
two-point paths with distinct endpoints for nonnegative `L` — shifts the
last point by `L` away from the second-to-last; a padded endpoint moves by
exactly `|L|`. -/
theorem endpoint_padding_characterization :
    (∀ cmds (diam : ℚ) (b : Builder), Builder.run cmds = .ok b →
        ((build_model cmds diam).map fun m => m.layers.map (·.paths))
          = .ok ((sortByZ b.z_to_layer).map fun p =>
              (((alookup b.layer_paths p.2).getD []).map fun q =>
                  q.map Vec2.toR).map (add_padding ((diam : ℝ) / 2)))
        ∧ ((build_model cmds diam).map fun m => m.priming_layer.map (·.paths))
          = .ok (b.priming_layer.map fun lid =>
              ((alookup b.layer_paths lid).getD []).map fun q => q.map Vec2.toR))
      ∧ (∀ (L : ℝ) (p : List RVec2), (add_padding L p).length = p.length)
      ∧ (∀ (L : ℝ) (p : List RVec2) (i : Nat), 0 < i → i < p.length - 1 →
          (add_padding L p)[i]? = p[i]?)
      ∧ (∀ (L : ℝ) (p : List RVec2) (a b : RVec2), p[0]? = some a → p[1]? = some b →
          (add_padding L p)[0]? = some (a + L • normalizedR (a - b)))
      ∧ (∀ (L : ℝ) (p : List RVec2) (x y : RVec2), 3 ≤ p.length →
          p[p.length - 2]? = some x → p[p.length - 1]? = some y →
          (add_padding L p)[p.length - 1]? = some (y + L • normalizedR (y - x)))
      ∧ (∀ (L : ℝ), 0 ≤ L → ∀ (a b : RVec2), a ≠ b →
          add_padding L [a, b] = [a + L • normalizedR (a - b), b + L • normalizedR (b - a)])
      ∧ (∀ (L : ℝ) (v : RVec2), v ≠ 0 → rlen (L • normalizedR v) = |L|) := by
  refine ⟨?_, add_padding_length, add_padding_interior, add_padding_head,
    add_padding_last, add_padding_pair_endpoints, ?_⟩
  · intro cmds diam b h
    constructor
    · simp [build_model, h, Except.map, finalize_layer, List.map_map, Function.comp]
    · simp [build_model, h, Except.map, finalize_layer, List.map_map, Function.comp]
      cases b.priming_layer <;> rfl
  · intro L v hv
    rw [rlen_smul, rlen_normalizedR v hv, mul_one]

/-- C4: per-layer statistics.  On a single deposition move from the
initial state the layer records feedrate samples [40] and temperature
samples [0]; the built model has feedrate_min = feedrate_max = 40 but
feedrate_avg = 0 — `build_model` (model.py line 427) assigns
`layer.feedrate_avg = mean(temperatures)` — although the mean of the
recorded feedrate samples is 40.  The temperature statistics are correct,
and the priming layer of a build that has one gets NO statistics at all
(its fields stay `None`), contradicting the claim's "including the
priming layer". -/
theorem feedrate_avg_gets_temperature_mean :
    ((build_model cmds_single_move (2/5)).map fun m =>
        m.layers.map fun l => (l.feedrate_min, l.feedrate_max, l.feedrate_avg))
      = .ok [(some 40, some 40, some 0)]
      ∧ ((build_model cmds_single_move (2/5)).map fun m =>
          m.layers.map fun l => (l.temperature_min, l.temperature_max, l.temperature_avg))
        = .ok [(some 0, some 0, some 0)]
      ∧ ((Builder.run cmds_single_move).map fun b =>
          (b.layer_to_feedrates, b.layer_to_temperatures))
        = .ok ([(0, [40])], [(0, [0])])
      ∧ mean [40] = 40
      ∧ ((build_model cmds_priming (1 : ℚ)).map fun m =>
          m.priming_layer.map fun l => (l.temperature_min, l.feedrate_avg))
        = .ok (some (none, none)) := by
  refine ⟨?_, ?_, ?_, ?_, ?_⟩ <;> with_unfolding_all decide

/-- C5: the previous-state snapshot after a command.  `MachineState.update`
(machine.py line 312) copies the incoming FEEDRATE into the temperature
field, so after the machine handles its first command (here G90) the
previous snapshot reads temperature 40 — the feedrate — although the
current state held temperature 0 before the command; every other field is
copied as the claim states. -/
theorem update_copies_feedrate_into_temperature :
    (∀ s : MachineState, (MachineState.update s).temp_extruder = s.feedrate)
      ∧ (Machine.run [.g90]).state_previous.temp_extruder = 40
      ∧ (Machine.run []).state_current.temp_extruder = 0 :=
  ⟨fun _ => rfl, by with_unfolding_all decide, by with_unfolding_all decide⟩

/-- C6: G92 with a commanded value of 0.  `_set_position` tests
`if command.e:` — Python truthiness — so `G92 E0` after `G1 E5` leaves the
extruder offset at 0 and the absolute extruder value at 5 (the claim
requires it to become 0); a nonzero commanded value (`G92 E3`) adjusts the
offset as the claim states, leaving the raw extruder value untouched. -/
theorem set_position_ignores_zero :
    ((Machine.run [g1e5, .g92 none none none (some 0)]).state_current.extruder_abs = 5)
      ∧ ((Machine.run [g1e5, .g92 none none none (some 0)]).state_current.offset_extruder = 0)
      ∧ ((Machine.run [g1e5, .g92 none none none (some 3)]).state_current.extruder_abs = 3)
      ∧ ((Machine.run [g1e5, .g92 none none none (some 3)]).state_current.extruder = 5) := by
  refine ⟨?_, ?_, ?_, ?_⟩ <;> with_unfolding_all decide

/-- C7 counterexample: constructing M104 (or M109) without `s` raises the
interpreter-level TypeError for a missing required positional argument,
not the MissingParameter command error the claim names. -/
theorem m104_missing_s_is_type_error :
    (mkM104 none none none = .error .python_type_error)
      ∧ (mkM104 none none none ≠ .error .command_missing_param)
      ∧ (mkM109 none none none = .error .python_type_error)
      ∧ (mkM109 none none none ≠ .error .command_missing_param) := by
  refine ⟨rfl, ?_, rfl, ?_⟩ <;> intro h <;> injection h with h' <;> cases h'

/-- C7 (amended): LineMove with none of x, y, z, e, f, h, r, s, ArcMove
missing any of x, y, i, j, e, and G92 with none of x, y, z, e raise the
MissingParameter command error; M104 and M109 without `s` fail with
Python's TypeError instead. -/
theorem mandatory_param_validation :
    (mkLineMove none none none none none none none none = .error .command_missing_param)
      ∧ (∀ cw (x y i j e f : Option ℚ),
          x = none ∨ y = none ∨ i = none ∨ j = none ∨ e = none →
            mkArcMove cw x y i j e f = .error .command_missing_param)
      ∧ (mkG92 none none none none = .error .command_missing_param)
      ∧ (∀ r d : Option ℚ, mkM104 none r d = .error .python_type_error)
      ∧ (∀ r t : Option ℚ, mkM109 none r t = .error .python_type_error) := by
  refine ⟨rfl, ?_, rfl, fun _ _ => rfl, fun _ _ => rfl⟩
  intro cw x y i j e f h
  rcases h with rfl | rfl | rfl | rfl | rfl <;> simp [mkArcMove]

/-- C8 counterexample: a move providing `X0` (with unchanged z and an
increasing extruder, as the machine run shows) is NOT treated as a
deposition move — `any([command.x, command.y])` reads a provided 0 as
absent — so after `G1 X5 E1; G1 X0 E2` the single layer holds only the
first segment [(0,0), (5,0)], not the segment to (0,0) the claim
requires. -/
theorem zero_x_move_not_deposited :
    ((Builder.run cmds_zero_x).map fun b => b.layer_paths)
      = .ok [(0, [[⟨0, 0⟩, ⟨5, 0⟩]])]
      ∧ (Machine.run cmds_zero_x).state_previous.position_abs.z
          = (Machine.run cmds_zero_x).state_current.position_abs.z
      ∧ (Machine.run cmds_zero_x).state_previous.extruder_abs
          < (Machine.run cmds_zero_x).state_current.extruder_abs := by
  refine ⟨?_, ?_, ?_⟩ <;> with_unfolding_all decide

/-- C8 (amended): the X-or-Y part of the deposition test is Python
truthiness — it holds exactly when some provided X or Y is NONZERO — and
the deposition z sequence 0.2, 0.2, 0.4, 0.4 (extruder increasing each
move) yields exactly 2 layers of heights 0.2 and 0.2, with each deposition
move contributing its segment from the previous to the current absolute XY
on the layer at the current z. -/
theorem deposition_requires_nonzero_xy :
    (∀ x y : Option ℚ, (pyTruthy x || pyTruthy y) = true ↔
        ((∃ v, x = some v ∧ v ≠ 0) ∨ (∃ v, y = some v ∧ v ≠ 0)))
      ∧ ((build_model cmds_two_layers (2/5)).map fun m =>
          (m.layers.length, m.get_layer_height 1, m.get_layer_height 2))
        = .ok (2, some (1/5), some (1/5))
      ∧ ((Builder.run cmds_two_layers).map fun b => b.layer_paths)
        = .ok [(0, [[⟨0, 0⟩, ⟨1, 0⟩, ⟨2, 0⟩]]), (1, [[⟨2, 0⟩, ⟨3, 0⟩, ⟨4, 0⟩]])]
      ∧ ((Builder.run cmds_two_layers).map fun b => b.z_to_layer)
        = .ok [(1/5, 0), (2/5, 1)] := by
  refine ⟨?_, ?_, ?_, ?_⟩
  · intro x y
    cases x <;> cases y <;> simp [pyTruthy]
  all_goals with_unfolding_all decide

/-- C9: the position update of a move command.  In relative mode the
position becomes the old position plus the provided axis deltas (missing
axes contribute 0, arcs never carry z), each coordinate rounded to 3
decimal places; in absolute mode exactly the provided coordinates are
overwritten with value × unit multiplier (z only for line moves), the
multiplier being 25.4 in imperial mode and 1 otherwise; and the sequence
[G91, G1 X5, G1 X5] ends with absolute x-position 10. -/
theorem move_position_semantics :
    (∀ (m : Machine) (x y z e f h r s : Option ℚ),
        m.state_current.is_rel_positioning = true →
        (m.handle_command (.line_move x y z e f h r s)).state_current.position =
          ⟨round3 (m.state_current.position.x + x.getD 0),
           round3 (m.state_current.position.y + y.getD 0),
           round3 (m.state_current.position.z + z.getD 0)⟩)
      ∧ (∀ (m : Machine) (cw : Bool) (x y i j e f : Option ℚ),
          m.state_current.is_rel_positioning = true →
          (m.handle_command (.arc_move cw x y i j e f)).state_current.position =
            ⟨round3 (m.state_current.position.x + x.getD 0),
             round3 (m.state_current.position.y + y.getD 0),
             round3 (m.state_current.position.z + 0)⟩)
      ∧ (∀ (m : Machine) (x y z e f h r s : Option ℚ),
          m.state_current.is_rel_positioning = false →
          (m.handle_command (.line_move x y z e f h r s)).state_current.position =
            ⟨(x.map (· * m.state_current.unit_multiplier)).getD m.state_current.position.x,
             (y.map (· * m.state_current.unit_multiplier)).getD m.state_current.position.y,
             (z.map (· * m.state_current.unit_multiplier)).getD m.state_current.position.z⟩)
      ∧ (∀ (m : Machine) (cw : Bool) (x y i j e f : Option ℚ),
          m.state_current.is_rel_positioning = false →
          (m.handle_command (.arc_move cw x y i j e f)).state_current.position =
            ⟨(x.map (· * m.state_current.unit_multiplier)).getD m.state_current.position.x,
             (y.map (· * m.state_current.unit_multiplier)).getD m.state_current.position.y,
             m.state_current.position.z⟩)
      ∧ (∀ st : MachineState, st.unit_multiplier = if st.is_imperial then 254 / 10 else 1)
      ∧ (Machine.run [.g91,
            .line_move (some 5) none none none none none none none,
            .line_move (some 5) none none none none none none none]).state_current.position_abs.x
          = 10 := by
  refine ⟨?_, ?_, ?_, ?_, fun _ => rfl, by with_unfolding_all decide⟩
  · intro m x y z e f h r s hrel
    simp [Machine.handle_command, Machine.handle_move, MachineState.update, move_xyz,
      move_e, move_f, hrel]
  · intro m cw x y i j e f hrel
    simp [Machine.handle_command, Machine.handle_move, MachineState.update, move_xyz,
      move_e, move_f, hrel]
  · intro m x y z e f h r s hrel
    simp [Machine.handle_command, Machine.handle_move, MachineState.update, move_xyz,
      move_e, move_f, hrel]
    cases e <;> cases f <;> cases x <;> cases y <;> cases z <;>
      simp [MachineState.unit_multiplier]
  · intro m cw x y i j e f hrel
    simp [Machine.handle_command, Machine.handle_move, MachineState.update, move_xyz,
      move_e, move_f, hrel]
    cases e <;> cases f <;> cases x <;> cases y <;>
      simp [MachineState.unit_multiplier]

/-- C9 witness: `move_position_semantics` applied at a concrete relative
mode machine and a concrete `G1 X5`. -/
theorem move_position_semantics_witness :
    ((Machine.run [.g91]).state_current.is_rel_positioning = true)
      ∧ ((Machine.run [.g91]).handle_command
            (.line_move (some 5) none none none none none none none)).state_current.position =
          ⟨round3 ((Machine.run [.g91]).state_current.position.x + (some (5 : ℚ)).getD 0),
           round3 ((Machine.run [.g91]).state_current.position.y + (none : Option ℚ).getD 0),
           round3 ((Machine.run [.g91]).state_current.position.z + (none : Option ℚ).getD 0)⟩ :=
  ⟨by with_unfolding_all decide,
   move_position_semantics.1 (Machine.run [.g91]) (some 5) none none none none none none none
     (by with_unfolding_all decide)⟩

/-- C10: the default `Point3D` arguments of `MachineState.__init__` are
shared module-lifetime objects.  After one machine handles `G1 X5` in
absolute mode (mutating the shared default position object in place), a
newly constructed `Machine` reads current position (5,0,0), not the
(0,0,0) it reads in a fresh process; in a fresh process the claimed
default recordings do hold: a deposition move before any temperature or
feedrate command records temperature 0 and feedrate 40. -/
theorem shared_default_points_leak_across_machines :
    ((HMachine.run (HMachine.init, Heap.init)
          [.line_move (some 5) none none none none none none none]).2.get
        HMachine.init.state_current.position = ⟨5, 0, 0⟩)
      ∧ Heap.init.get HMachine.init.state_current.position = ⟨0, 0, 0⟩
      ∧ ((Builder.run cmds_single_move).map fun b =>
          (b.layer_to_temperatures, b.layer_to_feedrates))
        = .ok ([(0, [0])], [(0, [40])]) := by
  refine ⟨?_, ?_, ?_⟩ <;> with_unfolding_all decide

end LayerView
